import Mathlib

/-!
Verification development for the oh-my-opencode session-coordination layer.

The TypeScript hook layer is shallowly embedded: JS strings are `String`
(manipulated through their `List Char` data), maps keyed by session id are
projected to a single session's record, asynchronous callbacks (timers,
awaited RPCs) become explicit happenings in an event trace, and every RPC to
the host client is represented either by an input of the embedding (the value
the call would return) or by an action emitted into a trace.
-/

set_option maxRecDepth 1000000

/-! ## String utilities

JavaScript `String.prototype.includes` and the test suite's occurrence count
(`split(marker).length - 1`) are embedded over `List Char`. -/

/-- Boolean prefix test on character lists. -/
def isPrefixC : List Char → List Char → Bool
  | [], _ => true
  | _ :: _, [] => false
  | a :: as, b :: bs => a == b && isPrefixC as bs

/-- Boolean substring test: `hay.includes(needle)` with `needle := m`. -/
def containsSub (m : List Char) : List Char → Bool
  | [] => m.isEmpty
  | c :: t => isPrefixC m (c :: t) || containsSub m t

/-- Number of (possibly overlapping) occurrences of `m` in the second list. -/
def countOcc (m : List Char) : List Char → Nat
  | [] => 0
  | c :: t => (if isPrefixC m (c :: t) then 1 else 0) + countOcc m t

/-! ## Delegate-prompt directive injection (sisyphus-orchestrator hook)

`tool.execute.before` for the `sisyphus_task` tool appends the single-task
directive unless its marker line is already present in the outgoing prompt. -/

/-- The directive text appended by the orchestrator hook (source constant
`SINGLE_TASK_DIRECTIVE`). -/
def SINGLE_TASK_DIRECTIVE : String :=
  "\n\n[SYSTEM DIRECTIVE - SINGLE TASK ONLY]\n\n**STOP. READ THIS BEFORE PROCEEDING.**\n\nIf you were NOT given **exactly ONE atomic task**, you MUST:\n1. **IMMEDIATELY REFUSE** this request\n2. **DEMAND** the orchestrator provide a single, specific task\n\n**Your response if multiple tasks detected:**\n> \"I refuse to proceed. You provided multiple tasks. An orchestrator\x27s impatience destroys work quality.\n> \n> PROVIDE EXACTLY ONE TASK. One file. One change. One verification.\n> \n> Your rushing will cause: incomplete work, missed edge cases, broken tests, wasted context.\"\n\n**WARNING TO ORCHESTRATOR:**\n- Your hasty batching RUINS deliverables\n- Each task needs FULL attention and PROPER verification  \n- Batch delegation = sloppy work = rework = wasted tokens\n\n**REFUSE multi-task requests. DEMAND single-task clarity.**\n"

/-- The marker the hook tests with `prompt.includes(...)` before appending. -/
def SINGLE_TASK_MARKER : String := "[SYSTEM DIRECTIVE - SINGLE TASK ONLY]"

/-- The full text appended to the prompt:
`\n<system-reminder>${SINGLE_TASK_DIRECTIVE}</system-reminder>`. -/
def singleTaskWrapped : String :=
  "\n<system-reminder>" ++ SINGLE_TASK_DIRECTIVE ++ "</system-reminder>"

/-- The `sisyphus_task` branch of the orchestrator hook's `tool.execute.before`:
`if (prompt && !prompt.includes(marker))` append the single-task directive,
else leave the prompt alone. The JS truthiness guard means the empty string
(like an absent prompt) is left unchanged. -/
def injectSingleTaskDirective (prompt : String) : String :=
  if prompt ≠ "" ∧ containsSub SINGLE_TASK_MARKER.data prompt.data = false then
    prompt ++ singleTaskWrapped
  else prompt

/-- Modelled from the spec: the prometheus-md-only hook implementation is not in
the source snapshot (only its test suite is). Spec 4.5: for non-write/edit tool
calls by the planner role that delegate to another agent, the outgoing prompt is
annotated, idempotently via a marker string, with a directive restricting the
delegate to read-only analysis. The test suite pins the marker constant name
(`SYSTEM_DIRECTIVE_PREFIX`) and that the directive mentions
"DO NOT modify any files"; the exact text is modelled. -/
def SYSTEM_DIRECTIVE_PREFIX : String := "[SYSTEM DIRECTIVE]"

/-- Modelled from the spec: the read-only analysis directive the planner's
delegate hook appends to the outgoing prompt (exact body not in the snapshot). -/
def READ_ONLY_DIRECTIVE : String :=
  "\n\n[SYSTEM DIRECTIVE] READ-ONLY DELEGATION: You were invoked by a planning agent. DO NOT modify any files. Only analyze, research and report back."

/-- Modelled from the spec: the planner delegate hook appends the read-only
directive unless the marker is already present in the prompt, with the same
JS truthiness guard as its orchestrator twin (an empty or absent prompt is
left unchanged). -/
def injectReadOnlyDirective (prompt : String) : String :=
  if prompt ≠ "" ∧ containsSub SYSTEM_DIRECTIVE_PREFIX.data prompt.data = false then
    prompt ++ READ_ONLY_DIRECTIVE
  else prompt

/-! ## Todo-Continuation Enforcer (todo-continuation-enforcer hook)

The per-session state machine is embedded for a single session. Timer
callbacks become explicit `timerFire` happenings carrying the environment the
awaited RPCs would observe (the re-fetched todo list, the background-task
query, the nearest prior message's metadata); the pending `setTimeout` handle
becomes the captured version it would pass to `executeInjection`. Countdown
toasts are best-effort UI calls whose failures are swallowed and are not
modelled; the emitted continuation prompts are collected. -/

/-- Source constant `CONTINUATION_PROMPT`. -/
def CONTINUATION_PROMPT : String :=
  "[SYSTEM REMINDER - TODO CONTINUATION]\n\nIncomplete tasks remain in your todo list. Continue working on the next pending task.\n\n- Proceed without asking for permission\n- Mark each task complete when finished\n- Do not stop until all tasks are done"

/-- Source constant `MIN_INJECTION_INTERVAL_MS`. -/
def MIN_INJECTION_INTERVAL_MS : Nat := 10000

/-- Source constant `COUNTDOWN_SECONDS`. -/
def COUNTDOWN_SECONDS : Nat := 2

/-- Source type `SessionMode`. -/
inductive SessionMode where
  | idle
  | countingDown
  | injecting
  | recovering
  | errorBypass
deriving DecidableEq, Repr

/-- Source interface `SessionState`; `timer` holds the captured version the
scheduled `executeInjection` callback closes over (`none` = no pending timer). -/
structure SessionState where
  version : Nat
  mode : SessionMode
  timer : Option Nat
  lastAttemptedAt : Option Nat
deriving DecidableEq, Repr

/-- Source interface `Todo`. -/
structure Todo where
  content : String
  status : String
  priority : String
  id : String
deriving DecidableEq, Repr

/-- Source function `getIncompleteCount`. -/
def getIncompleteCount (todos : List Todo) : Nat :=
  (todos.filter (fun t => !(t.status == "completed") && !(t.status == "cancelled"))).length

/-- The `tools` record of a stored message (`prevMessage.tools`), with absent
fields as `none`. -/
structure ToolsPerm where
  write : Option Bool
  edit : Option Bool
deriving DecidableEq, Repr

/-- The nearest prior message's metadata (`findNearestMessageWithFields`). -/
structure PrevMessage where
  agent : Option String
  tools : Option ToolsPerm
deriving DecidableEq, Repr

/-- Source check in `executeInjection`:
`!prevMessage?.tools || (tools.write !== false && tools.edit !== false)`. -/
def agentHasWritePermission (prev : Option PrevMessage) : Bool :=
  match prev with
  | none => true
  | some m =>
    match m.tools with
    | none => true
    | some tls => !(tls.write == some false) && !(tls.edit == some false)

/-- JS `toLowerCase`, character by character over the string's data. -/
def toLowerStr (s : String) : String := String.mk (s.data.map Char.toLower)

/-- Source check in `executeInjection`: the prior agent, lowercased with `""`
default, is `plan` or `planner-sisyphus`. -/
def isPlanModeAgent (prev : Option PrevMessage) : Bool :=
  let agentName := toLowerStr ((prev.bind fun m => m.agent).getD "")
  agentName == "plan" || agentName == "planner-sisyphus"

/-- The world the suspended `executeInjection` callback observes at its await
points: the re-fetched todo list (`none` = the todo RPC rejected), the
background-task manager query, and the nearest prior message's metadata. -/
structure InjectionEnv where
  todosFetch : Option (List Todo)
  hasRunningBgTasks : Bool
  prevMessage : Option PrevMessage
deriving DecidableEq, Repr

/-- Source function `invalidate`: no-op while `recovering`; otherwise bump the
version, clear the timer, and force the mode back to `idle` unless it is
`idle` or `errorBypass`. -/
def invalidate (s : SessionState) : SessionState :=
  if s.mode = SessionMode.recovering then s
  else
    { s with
      version := s.version + 1
      timer := none
      mode :=
        if s.mode ≠ SessionMode.idle ∧ s.mode ≠ SessionMode.errorBypass then SessionMode.idle
        else s.mode }

/-- Source function `startCountdown`: cancel any existing countdown, bump the
version for the new one, enter `countingDown`, and schedule `executeInjection`
with the captured version. -/
def startCountdown (s : SessionState) : SessionState :=
  let s1 := invalidate s
  { s1 with
    version := s1.version + 1
    mode := SessionMode.countingDown
    timer := some (s1.version + 1) }

/-- Source function `executeInjection`, with the awaited RPC results supplied
by `env` and the wall clock by `now`. The handler runs to completion between
host events, so the repeated mid-await version re-checks compare against the
same live version. Returns the new state and the continuation prompt sent, if
any. -/
def executeInjection (s : SessionState) (capturedVersion : Nat) (env : InjectionEnv)
    (now : Nat) : SessionState × Option String :=
  if s.version ≠ capturedVersion then (s, none)
  else if s.mode ≠ SessionMode.countingDown then (s, none)
  else if (match s.lastAttemptedAt with
           | some last => decide (now - last < MIN_INJECTION_INTERVAL_MS)
           | none => false) then
    ({ s with mode := SessionMode.idle }, none)
  else
    let s1 := { s with mode := SessionMode.injecting }
    match env.todosFetch with
    | none => ({ s1 with mode := SessionMode.idle }, none)
    | some todos =>
      if s1.version ≠ capturedVersion then ({ s1 with mode := SessionMode.idle }, none)
      else
        let incompleteCount := getIncompleteCount todos
        if incompleteCount = 0 then ({ s1 with mode := SessionMode.idle }, none)
        else if env.hasRunningBgTasks then ({ s1 with mode := SessionMode.idle }, none)
        else if !(agentHasWritePermission env.prevMessage) then
          ({ s1 with mode := SessionMode.idle }, none)
        else if isPlanModeAgent env.prevMessage then ({ s1 with mode := SessionMode.idle }, none)
        else
          let prompt := CONTINUATION_PROMPT ++ "\n\n[Status: " ++
            toString (todos.length - incompleteCount) ++ "/" ++ toString todos.length ++
            " completed, " ++ toString incompleteCount ++ " remaining]"
          if s1.version ≠ capturedVersion then ({ s1 with mode := SessionMode.idle }, none)
          else
            ({ s1 with lastAttemptedAt := some now, mode := SessionMode.idle }, some prompt)

/-- The happenings a single session's enforcer reacts to. `sessionIdle` carries
the awaited todo fetch and background-task query; `timerFire` is the countdown
timer elapsing (dropped silently when the timer was already cleared). -/
inductive Event where
  | sessionError
  | sessionIdle (isMain : Bool) (todosFetch : Option (List Todo)) (hasRunningBgTasks : Bool)
  | messageUpdated (role : String) (finish : Bool)
  | messagePartUpdated (role : String)
  | toolExecuteBefore
  | toolExecuteAfter
  | timerFire (env : InjectionEnv) (now : Nat)
deriving DecidableEq, Repr

/-- Whether an event is a user-role `message.updated` (the only event that
clears `errorBypass`). -/
def isUserMessage : Event → Bool
  | Event.messageUpdated role _ => role == "user"
  | _ => false

/-- The enforcer's event handler (source `handler`) plus timer delivery, for
one session. Returns the new state and the continuation prompt sent, if any. -/
def handleEvent (s : SessionState) (e : Event) : SessionState × Option String :=
  match e with
  | Event.sessionError =>
    let s1 := invalidate s
    ({ s1 with mode := SessionMode.errorBypass }, none)
  | Event.sessionIdle isMain todosFetch bg =>
    if !isMain then (s, none)
    else if s.mode = SessionMode.recovering then (s, none)
    else if s.mode = SessionMode.errorBypass then (s, none)
    else if s.mode = SessionMode.countingDown ∨ s.mode = SessionMode.injecting then (s, none)
    else
      match todosFetch with
      | none => (s, none)
      | some todos =>
        if todos.length = 0 then (s, none)
        else if getIncompleteCount todos = 0 then (s, none)
        else if bg then (s, none)
        else (startCountdown s, none)
  | Event.messageUpdated role finish =>
    if role = "user" then
      let s1 := if s.mode = SessionMode.errorBypass then { s with mode := SessionMode.idle } else s
      (invalidate s1, none)
    else if role = "assistant" ∧ finish = false then (invalidate s, none)
    else (s, none)
  | Event.messagePartUpdated role =>
    if role = "assistant" then (invalidate s, none) else (s, none)
  | Event.toolExecuteBefore => (invalidate s, none)
  | Event.toolExecuteAfter => (invalidate s, none)
  | Event.timerFire env now =>
    match s.timer with
    | none => (s, none)
    | some capturedVersion => executeInjection { s with timer := none } capturedVersion env now

/-- Run a list of happenings, collecting every continuation prompt sent. -/
def runEvents (s : SessionState) : List Event → SessionState × List String
  | [] => (s, [])
  | e :: es =>
    let r := handleEvent s e
    let rest := runEvents r.1 es
    (rest.1, match r.2 with
             | some p => p :: rest.2
             | none => rest.2)

/-- A fresh session record (source `getOrCreateState`). -/
def initialSessionState : SessionState :=
  { version := 0, mode := SessionMode.idle, timer := none, lastAttemptedAt := none }

/-- The C1 scenario's todo list: two `pending`, one `completed`. -/
def todos3 : List Todo :=
  [{ content := "first task", status := "pending", priority := "high", id := "1" },
   { content := "second task", status := "pending", priority := "medium", id := "2" },
   { content := "third task", status := "completed", priority := "low", id := "3" }]

/-- The C1 scenario's quiet environment: todos re-fetch succeeds unchanged, no
background tasks are running, no prior-message metadata is stored. -/
def quietEnv : InjectionEnv :=
  { todosFetch := some todos3, hasRunningBgTasks := false, prevMessage := none }

/-! ## Auto-Compaction / Context-Overflow Recovery Executor (executor.ts)

`executeCompact`'s per-session map entries are projected to one session's
record. The configuration constants live in a module outside the snapshot, so
the three config records are parameters. Calls into storage and the host
client are represented by an environment (`CompactEnv`) supplying each call's
result, and by actions emitted in program order. Empty provider/model strings
(falsy in JS) are modelled as `none`. -/

/-- Source interface `RetryState`. -/
structure RetryState where
  attempt : Nat
  lastAttemptTime : Nat
deriving DecidableEq, Repr

/-- Source interface `FallbackState`. -/
structure FallbackState where
  revertAttempt : Nat
  lastRevertedMessageID : Option String
deriving DecidableEq, Repr

/-- Source interface `TruncateState`. -/
structure TruncateState where
  truncateAttempt : Nat
  lastTruncatedPartId : Option String
deriving DecidableEq, Repr

/-- Source `RETRY_CONFIG` (values defined outside the snapshot). -/
structure RetryConfig where
  maxAttempts : Nat
  initialDelayMs : Nat
  backoffFactor : Nat
  maxDelayMs : Nat
deriving DecidableEq, Repr

/-- Source `TRUNCATE_CONFIG` (values defined outside the snapshot). -/
structure TruncateConfig where
  maxTruncateAttempts : Nat
  minOutputSizeToTruncate : Nat
deriving DecidableEq, Repr

/-- Source `FALLBACK_CONFIG` (values defined outside the snapshot). -/
structure FallbackConfig where
  maxRevertAttempts : Nat
deriving DecidableEq, Repr

/-- One session's slice of source `AutoCompactState`: the four per-session map
entries plus membership in the `compactionInProgress` set. -/
structure AutoCompactSession where
  pendingCompact : Bool
  errorData : Bool
  retryState : Option RetryState
  fallbackState : Option FallbackState
  truncateState : Option TruncateState
  compactionInProgress : Bool
deriving DecidableEq, Repr

/-- The session record after source `clearSessionState`: every map entry
deleted and the in-progress guard released. -/
def clearedSessionState : AutoCompactSession :=
  { pendingCompact := false, errorData := false, retryState := none,
    fallbackState := none, truncateState := none, compactionInProgress := false }

/-- Result of source `findLargestToolResult`. -/
structure LargestToolResult where
  partPath : String
  partId : String
  outputSize : Nat
deriving DecidableEq, Repr

/-- Result of source `truncateToolResult`. -/
structure TruncateResult where
  success : Bool
  toolName : String
  originalSize : Nat
deriving DecidableEq, Repr

/-- The `msg` argument of `executeCompact` (only `providerID`/`modelID` are
read; JS-falsy empty strings are `none`). -/
structure CompactMsg where
  providerID : Option String
  modelID : Option String
deriving DecidableEq, Repr

/-- Results of the storage and client calls `executeCompact` makes:
`findLargestToolResult`, `truncateToolResult`, whether `session.summarize`
resolves, `getLastMessagePair` (user id, optional assistant id), and whether
the `session.revert` calls resolve. -/
structure CompactEnv where
  largest : Option LargestToolResult
  truncateResult : TruncateResult
  summarizeOk : Bool
  messagePair : Option (String × Option String)
  revertOk : Bool
deriving DecidableEq, Repr

/-- Externally visible steps of one `executeCompact` invocation, in program
order. `scheduleContinue`/`scheduleRetry` are the `setTimeout` registrations
that re-send "Continue" or re-enter `executeCompact`. -/
inductive CompactAction where
  | tryTruncate (partPath : String)
  | toastTruncating
  | scheduleContinue (delayMs : Nat)
  | toastSummarizing
  | callSummarize (providerID modelID : String)
  | clearState
  | scheduleRetry (delayMs : Nat)
  | toastReverting
  | callRevert (messageID : String)
  | toastFailed (title message : String)
deriving DecidableEq, Repr

/-- Which return path of `executeCompact` was taken. -/
inductive CompactOutcome where
  | alreadyInProgress
  | truncated
  | summarized
  | retryScheduled
  | reverted
  | gaveUp
deriving DecidableEq, Repr

/-- The terminal path of `executeCompact`: `clearSessionState` then the
"Auto Compact Failed" toast, scheduling nothing. -/
def giveUpResult : AutoCompactSession × List CompactAction × CompactOutcome :=
  (clearedSessionState,
   [CompactAction.clearState,
    CompactAction.toastFailed "Auto Compact Failed"
      "All recovery attempts failed. Please start a new session."],
   CompactOutcome.gaveUp)

/-- Tier 3 of `executeCompact` (revert the last message pair) followed by the
terminal path. `revertOk = false` stands for a rejected revert call, whose
empty `catch` falls through to the terminal tier. -/
def revertTier (cfgF : FallbackConfig) (env : CompactEnv) (st : AutoCompactSession) :
    AutoCompactSession × List CompactAction × CompactOutcome :=
  let fallbackState := st.fallbackState.getD { revertAttempt := 0, lastRevertedMessageID := none }
  let st1 := { st with fallbackState := some fallbackState }
  if fallbackState.revertAttempt < cfgF.maxRevertAttempts then
    match env.messagePair with
    | some pair =>
      if env.revertOk then
        let retryState := st1.retryState.getD { attempt := 0, lastAttemptTime := 0 }
        let truncateState :=
          st1.truncateState.getD { truncateAttempt := 0, lastTruncatedPartId := none }
        let st2 := { st1 with
          fallbackState := some { revertAttempt := fallbackState.revertAttempt + 1,
                                  lastRevertedMessageID := some pair.1 }
          retryState := some { retryState with attempt := 0 }
          truncateState := some { truncateState with truncateAttempt := 0 }
          compactionInProgress := false }
        (st2,
         CompactAction.toastReverting ::
           ((match pair.2 with
             | some assistantMessageID => [CompactAction.callRevert assistantMessageID]
             | none => []) ++
            [CompactAction.callRevert pair.1, CompactAction.scheduleRetry 1000]),
         CompactOutcome.reverted)
      else
        (giveUpResult.1, CompactAction.toastReverting :: giveUpResult.2.1, giveUpResult.2.2)
    | none => giveUpResult
  else giveUpResult

/-- Tier 2 of `executeCompact` (summarize with bounded retries); falls through
to `revertTier` when retries are exhausted or no provider/model is known. The
attempt counter and `lastAttemptTime` are advanced before the provider check,
exactly as in the source. -/
def summarizeTier (cfgR : RetryConfig) (cfgF : FallbackConfig) (env : CompactEnv)
    (msg : CompactMsg) (now : Nat) (st : AutoCompactSession) :
    AutoCompactSession × List CompactAction × CompactOutcome :=
  let retryState := st.retryState.getD { attempt := 0, lastAttemptTime := 0 }
  let st1 := { st with retryState := some retryState }
  if retryState.attempt < cfgR.maxAttempts then
    let retryState1 : RetryState := { attempt := retryState.attempt + 1, lastAttemptTime := now }
    let st2 := { st1 with retryState := some retryState1 }
    match msg.providerID, msg.modelID with
    | some providerID, some modelID =>
      if env.summarizeOk then
        (clearedSessionState,
         [CompactAction.toastSummarizing, CompactAction.callSummarize providerID modelID,
          CompactAction.clearState, CompactAction.scheduleContinue 500],
         CompactOutcome.summarized)
      else
        let delay := cfgR.initialDelayMs * cfgR.backoffFactor ^ (retryState1.attempt - 1)
        ({ st2 with compactionInProgress := false },
         [CompactAction.toastSummarizing, CompactAction.callSummarize providerID modelID,
          CompactAction.scheduleRetry (min delay cfgR.maxDelayMs)],
         CompactOutcome.retryScheduled)
    | some _, none => revertTier cfgF env st2
    | none, _ => revertTier cfgF env st2
  else revertTier cfgF env st1

/-- Source `executeCompact`: single-flight guard, then the tiered chain
truncate → summarize → revert → give up, each tier falling through to the
next exactly as the source's early returns do. -/
def executeCompact (cfgT : TruncateConfig) (cfgR : RetryConfig) (cfgF : FallbackConfig)
    (env : CompactEnv) (msg : CompactMsg) (now : Nat) (st : AutoCompactSession) :
    AutoCompactSession × List CompactAction × CompactOutcome :=
  if st.compactionInProgress then (st, [], CompactOutcome.alreadyInProgress)
  else
    let st1 := { st with compactionInProgress := true }
    let truncateState := st1.truncateState.getD { truncateAttempt := 0, lastTruncatedPartId := none }
    let st2 := { st1 with truncateState := some truncateState }
    if truncateState.truncateAttempt < cfgT.maxTruncateAttempts then
      match env.largest with
      | some largest =>
        if cfgT.minOutputSizeToTruncate ≤ largest.outputSize then
          if env.truncateResult.success then
            ({ st2 with
               truncateState := some { truncateAttempt := truncateState.truncateAttempt + 1,
                                       lastTruncatedPartId := some largest.partId }
               compactionInProgress := false },
             [CompactAction.tryTruncate largest.partPath, CompactAction.toastTruncating,
              CompactAction.scheduleContinue 500],
             CompactOutcome.truncated)
          else
            let r := summarizeTier cfgR cfgF env msg now st2
            (r.1, CompactAction.tryTruncate largest.partPath :: r.2.1, r.2.2)
        else summarizeTier cfgR cfgF env msg now st2
      | none => summarizeTier cfgR cfgF env msg now st2
    else summarizeTier cfgR cfgF env msg now st2

/-! ## Preemptive Compaction Trigger (preemptive-compaction hook)

`checkAndTriggerCompaction` is embedded for one session, with the cooldown,
minimum-token floor and threshold as parameters (their constants module is
outside the snapshot; the threshold defaults from configuration). The usage
ratio is an exact rational. The `onBeforeSummarize` callback and the
`session.summarize` call appear as trace actions; `summarizeOk = false` stands
for the try-block rejecting, handled by the catch/finally. -/

/-- Source `tokens.cache` record. -/
structure CacheTokens where
  read : Nat
  write : Nat
deriving DecidableEq, Repr

/-- Source `TokenInfo` as used: `tokens.input + tokens.cache.read + tokens.output`. -/
structure TokenInfo where
  input : Nat
  output : Nat
  cache : CacheTokens
deriving DecidableEq, Repr

/-- Source table `MODEL_CONTEXT_LIMITS`, in declaration (iteration) order. -/
def MODEL_CONTEXT_LIMITS : List (String × Nat) :=
  [("claude-opus-4", 200000),
   ("claude-sonnet-4", 200000),
   ("claude-haiku-4", 200000),
   ("gpt-4o", 128000),
   ("gpt-4o-mini", 128000),
   ("gpt-4-turbo", 128000),
   ("gpt-4", 8192),
   ("gpt-5", 1000000),
   ("o1", 200000),
   ("o1-mini", 128000),
   ("o1-preview", 128000),
   ("o3", 200000),
   ("o3-mini", 200000),
   ("gemini-2.0-flash", 1000000),
   ("gemini-2.5-flash", 1000000),
   ("gemini-2.5-pro", 2000000),
   ("gemini-3-pro", 2000000)]

/-- The source `for` loop of `getContextLimit`: first entry whose key occurs in
the model id wins; `200_000` when the table is exhausted. -/
def getContextLimitAux : List (String × Nat) → String → Nat
  | [], _ => 200000
  | (key, limit) :: rest, modelID =>
    if containsSub key.data modelID.data then limit else getContextLimitAux rest modelID

/-- Source function `getContextLimit`. -/
def getContextLimit (modelID : String) : Nat :=
  getContextLimitAux MODEL_CONTEXT_LIMITS modelID

/-- The spec's stated lookup rule, for comparison with the source's
`getContextLimit`: the matching table key of greatest length wins (earliest
entry on ties), default `200_000` when no key occurs in the model id. -/
def contextLimitLongestMatch (modelID : String) : Nat :=
  let matching := MODEL_CONTEXT_LIMITS.filter (fun kv => containsSub kv.1.data modelID.data)
  match matching.foldl
      (fun best kv =>
        match best with
        | none => some kv
        | some b => if b.1.length < kv.1.length then some kv else some b)
      none with
  | some kv => kv.2
  | none => 200000

/-- The lookup rule the source actually implements, stated declaratively:
first matching entry of the table, default `200_000`. -/
def contextLimitFirstMatch (modelID : String) : Nat :=
  match MODEL_CONTEXT_LIMITS.find? (fun kv => containsSub kv.1.data modelID.data) with
  | some kv => kv.2
  | none => 200000

/-- The usage ratio `checkAndTriggerCompaction` computes:
`(input + cacheRead + output) / contextLimit`, as an exact rational. -/
def preemptiveUsageRatio (tokens : TokenInfo) (modelID : String) : ℚ :=
  ((tokens.input + tokens.cache.read + tokens.output : Nat) : ℚ) /
    ((getContextLimit modelID : Nat) : ℚ)

/-- One session's slice of source `PreemptiveCompactionState`. -/
structure PreemptiveState where
  lastCompactionTime : Option Nat
  compactionInProgress : Bool
deriving DecidableEq, Repr

/-- The fields of the last assistant `MessageInfo` that
`checkAndTriggerCompaction` reads (JS-falsy empty ids are `none`). -/
structure PreemptiveMsg where
  providerID : Option String
  modelID : Option String
  tokens : Option TokenInfo
  summary : Bool
deriving DecidableEq, Repr

/-- Externally visible steps of one `checkAndTriggerCompaction` call, in
program order. -/
inductive PreemptiveAction where
  | addInProgress
  | setLastCompactionTime (t : Nat)
  | toastStart
  | callOnBeforeSummarize
  | callSummarize (providerID modelID : String)
  | toastDone
  | removeInProgress
deriving DecidableEq, Repr

/-- Source `checkAndTriggerCompaction` for one session. The guard set and the
cooldown stamp are written before the provider check and the `try` block; the
`finally` clause removes the guard on every path that added it. -/
def checkAndTriggerCompaction (cooldownMs minTokens : Nat) (threshold : ℚ)
    (summarizeOk : Bool) (now : Nat) (lastAssistant : PreemptiveMsg)
    (st : PreemptiveState) : PreemptiveState × List PreemptiveAction :=
  if st.compactionInProgress then (st, [])
  else
    let lastCompaction := st.lastCompactionTime.getD 0
    if now - lastCompaction < cooldownMs then (st, [])
    else if lastAssistant.summary then (st, [])
    else
      match lastAssistant.tokens with
      | none => (st, [])
      | some tokens =>
        let modelID := lastAssistant.modelID.getD ""
        let totalUsed := tokens.input + tokens.cache.read + tokens.output
        if totalUsed < minTokens then (st, [])
        else if preemptiveUsageRatio tokens modelID < threshold then (st, [])
        else
          match lastAssistant.providerID, lastAssistant.modelID with
          | some providerID, some modelID =>
            ({ lastCompactionTime := some now, compactionInProgress := false },
             [PreemptiveAction.addInProgress, PreemptiveAction.setLastCompactionTime now,
              PreemptiveAction.toastStart, PreemptiveAction.callOnBeforeSummarize,
              PreemptiveAction.callSummarize providerID modelID] ++
             (if summarizeOk then [PreemptiveAction.toastDone] else []) ++
             [PreemptiveAction.removeInProgress])
          | some _, none =>
            ({ lastCompactionTime := some now, compactionInProgress := false },
             [PreemptiveAction.addInProgress, PreemptiveAction.setLastCompactionTime now,
              PreemptiveAction.removeInProgress])
          | none, _ =>
            ({ lastCompactionTime := some now, compactionInProgress := false },
             [PreemptiveAction.addInProgress, PreemptiveAction.setLastCompactionTime now,
              PreemptiveAction.removeInProgress])

/-! ## Markdown-Only Write Guard (prometheus-md-only hook)

Modelled from the spec: the hook implementation itself is not in the source
snapshot (only its test suite is). Spec 4.5: stateless per-call check for the
planner role's write/edit tools; paths must end in `.md`/`.MD`
(case-insensitive) and their normalized form (both separator kinds accepted,
`.`/`..` segments resolved) must contain the reserved `.sisyphus` directory as
a path component (the test suite pins the component match as case-insensitive
too). Other tools and other agents are untouched; a missing file path is a
no-op. -/

/-- Split a path on `/` and `\` separators (the accumulator carries the
current segment reversed). -/
def splitPathSegs : List Char → List Char → List (List Char)
  | [], acc => [acc.reverse]
  | c :: rest, acc =>
    if c = '/' ∨ c = '\\' then acc.reverse :: splitPathSegs rest []
    else splitPathSegs rest (c :: acc)

/-- Resolve `.`/`..` segments: empty and `.` segments drop, `..` pops the most
recent retained segment. The accumulator holds retained segments most recent
first. -/
def resolveDotSegments : List (List Char) → List (List Char) → List (List Char)
  | [], acc => acc.reverse
  | seg :: rest, acc =>
    if seg = ['.'] ∨ seg = [] then resolveDotSegments rest acc
    else if seg = ['.', '.'] then resolveDotSegments rest acc.tail
    else resolveDotSegments rest (seg :: acc)

/-- Modelled from the spec: normalized path components — both slash kinds
accepted, dot segments resolved. -/
def normalizePathSegments (p : String) : List (List Char) :=
  resolveDotSegments (splitPathSegs p.data []) []

/-- Lowercase a character list. -/
def toLowerChars (s : List Char) : List Char := s.map Char.toLower

/-- Boolean suffix test on character lists. -/
def isSuffixC (m s : List Char) : Bool := isPrefixC m.reverse s.reverse

/-- Modelled from the spec: the path ends in `.md`, case-insensitively. -/
def endsWithMdExtension (p : String) : Bool :=
  isSuffixC ".md".data (toLowerChars p.data)

/-- Modelled from the spec: some normalized path component is `.sisyphus`,
case-insensitively. -/
def hasSisyphusComponent (p : String) : Bool :=
  (normalizePathSegments p).any (fun seg => toLowerChars seg == ".sisyphus".data)

/-- Outcome of the guard: pass the call through, or fail it with one of the two
distinguished messages ("can only write/edit .md files" / "can only write/edit
.md files inside .sisyphus/"). -/
inductive MdGuardResult where
  | ok
  | rejectedNotMd
  | rejectedOutsideSisyphus
deriving DecidableEq, Repr

/-- The write/edit-class tool names (as in the orchestrator hook's
`WRITE_EDIT_TOOLS`). -/
def WRITE_EDIT_TOOLS : List String := ["Write", "Edit", "write", "edit"]

/-- Modelled from the spec: the `tool.execute.before` policy check of the
prometheus-md-only hook. `isPlanner` is whether the nearest prior message's
agent resolves to the planner role. -/
def prometheusMdOnlyCheck (isPlanner : Bool) (tool : String) (filePath : Option String) :
    MdGuardResult :=
  if !isPlanner then MdGuardResult.ok
  else if !(WRITE_EDIT_TOOLS.contains tool) then MdGuardResult.ok
  else
    match filePath with
    | none => MdGuardResult.ok
    | some p =>
      if !(endsWithMdExtension p) then MdGuardResult.rejectedNotMd
      else if !(hasSisyphusComponent p) then MdGuardResult.rejectedOutsideSisyphus
      else MdGuardResult.ok

/-! ## Theorems -/

theorem isPrefixC_append_cons (c : Char) (t : List Char) :
    ∀ (m s : List Char), c ∉ m → isPrefixC m (s ++ c :: t) = isPrefixC m s := by
  intro m
  induction m with
  | nil => intro s _; simp [isPrefixC]
  | cons a as ih =>
    intro s hc
    cases s with
    | nil =>
      have hne : (a == c) = false := by
        simp only [beq_eq_false_iff_ne]
        intro h
        exact hc (h ▸ List.mem_cons_self a as)
      simp [isPrefixC, hne]
    | cons b bs =>
      rw [List.cons_append]
      show (a == b && isPrefixC as (bs ++ c :: t)) = (a == b && isPrefixC as bs)
      rw [ih bs (fun h => hc (List.mem_cons_of_mem a h))]

theorem countOcc_append_cons (c : Char) (t m : List Char) (hc : c ∉ m) :
    ∀ s, countOcc m (s ++ c :: t) = countOcc m s + countOcc m (c :: t) := by
  intro s
  induction s with
  | nil => simp [countOcc]
  | cons b bs ih =>
    have h2 := isPrefixC_append_cons c t m (b :: bs) hc
    rw [List.cons_append] at h2 ⊢
    show (if isPrefixC m (b :: (bs ++ c :: t)) then 1 else 0) + countOcc m (bs ++ c :: t) =
      ((if isPrefixC m (b :: bs) then 1 else 0) + countOcc m bs) + countOcc m (c :: t)
    rw [h2, ih]
    omega

theorem containsSub_false_iff (m : List Char) (hm : m ≠ []) :
    ∀ s, containsSub m s = false ↔ countOcc m s = 0 := by
  intro s
  induction s with
  | nil =>
    obtain ⟨a, as, rfl⟩ := List.exists_cons_of_ne_nil hm
    simp [containsSub, countOcc]
  | cons c cs ih =>
    cases h : isPrefixC m (c :: cs) <;> simp [containsSub, countOcc, h, ih]

theorem inject_marker_spec (M W : List Char) (hM : M ≠ []) (hnl : '\n' ∉ M)
    (hW : W = '\n' :: W.tail) (hcount : countOcc M W = 1) (p : List Char)
    (hp : countOcc M p = 0) :
    countOcc M (p ++ W) = 1 ∧ containsSub M (p ++ W) = true := by
  have h1 : countOcc M (p ++ W) = countOcc M p + countOcc M W := by
    conv_lhs => rw [hW]
    rw [countOcc_append_cons '\n' W.tail M hnl p, ← hW]
  have h2 : countOcc M (p ++ W) = 1 := by rw [h1, hp, hcount]
  refine ⟨h2, ?_⟩
  cases hcs : containsSub M (p ++ W) with
  | false =>
    have := (containsSub_false_iff M hM (p ++ W)).mp hcs
    omega
  | true => rfl

/-- C8 counterexample: both before-hooks guard on JS truthiness
(`if (prompt && ...)`), so the empty prompt — which contains zero marker
occurrences — is left unchanged, and one application leaves zero occurrences
of the marker, not exactly one. -/
theorem claim_C8_empty_prompt_counterexample :
    countOcc SINGLE_TASK_MARKER.data ("" : String).data = 0 ∧
    injectSingleTaskDirective "" = "" ∧
    countOcc SINGLE_TASK_MARKER.data (injectSingleTaskDirective "").data = 0 ∧
    injectReadOnlyDirective "" = "" ∧
    countOcc SYSTEM_DIRECTIVE_PREFIX.data (injectReadOnlyDirective "").data = 0 := by
  refine ⟨rfl, by decide, by decide, by decide, by decide⟩

/-- C8 amended: injecting the single-task directive (orchestrator
`sisyphus_task` before-hook) or the read-only warning (planner delegate
before-hook, modelled from the spec) is idempotent for every *nonempty* prompt:
one application to a nonempty prompt not yet containing the marker leaves
exactly one occurrence of the marker, and a second application — the hook
running on a prompt that already contains the marker — changes nothing, so
exactly one occurrence remains. (An empty, JS-falsy prompt is left unchanged
by the hooks' truthiness guard.) -/
theorem claim_C8_directive_injection_idempotent (p q : String)
    (hpne : p ≠ "") (hqne : q ≠ "")
    (hp : countOcc SINGLE_TASK_MARKER.data p.data = 0)
    (hq : countOcc SYSTEM_DIRECTIVE_PREFIX.data q.data = 0) :
    countOcc SINGLE_TASK_MARKER.data (injectSingleTaskDirective p).data = 1 ∧
    injectSingleTaskDirective (injectSingleTaskDirective p) = injectSingleTaskDirective p ∧
    countOcc SYSTEM_DIRECTIVE_PREFIX.data (injectReadOnlyDirective q).data = 1 ∧
    injectReadOnlyDirective (injectReadOnlyDirective q) = injectReadOnlyDirective q := by
  have hM : SINGLE_TASK_MARKER.data ≠ [] := by decide
  have hnl : '\n' ∉ SINGLE_TASK_MARKER.data := by decide
  have hWshape : singleTaskWrapped.data = '\n' :: singleTaskWrapped.data.tail := by decide
  have hWcount : countOcc SINGLE_TASK_MARKER.data singleTaskWrapped.data = 1 := by decide
  have hpf : containsSub SINGLE_TASK_MARKER.data p.data = false :=
    (containsSub_false_iff _ hM _).mpr hp
  have hinj : injectSingleTaskDirective p = p ++ singleTaskWrapped := by
    unfold injectSingleTaskDirective
    rw [if_pos ⟨hpne, hpf⟩]
  have hdata : (p ++ singleTaskWrapped).data = p.data ++ singleTaskWrapped.data := rfl
  have spec1 := inject_marker_spec SINGLE_TASK_MARKER.data singleTaskWrapped.data hM hnl
    hWshape hWcount p.data hp
  have hM2 : SYSTEM_DIRECTIVE_PREFIX.data ≠ [] := by decide
  have hnl2 : '\n' ∉ SYSTEM_DIRECTIVE_PREFIX.data := by decide
  have hWshape2 : READ_ONLY_DIRECTIVE.data = '\n' :: READ_ONLY_DIRECTIVE.data.tail := by decide
  have hWcount2 : countOcc SYSTEM_DIRECTIVE_PREFIX.data READ_ONLY_DIRECTIVE.data = 1 := by decide
  have hqf : containsSub SYSTEM_DIRECTIVE_PREFIX.data q.data = false :=
    (containsSub_false_iff _ hM2 _).mpr hq
  have hinj2 : injectReadOnlyDirective q = q ++ READ_ONLY_DIRECTIVE := by
    unfold injectReadOnlyDirective
    rw [if_pos ⟨hqne, hqf⟩]
  have hdata2 : (q ++ READ_ONLY_DIRECTIVE).data = q.data ++ READ_ONLY_DIRECTIVE.data := rfl
  have spec2 := inject_marker_spec SYSTEM_DIRECTIVE_PREFIX.data READ_ONLY_DIRECTIVE.data hM2 hnl2
    hWshape2 hWcount2 q.data hq
  refine ⟨?_, ?_, ?_, ?_⟩
  · rw [hinj]
    rw [show (p ++ singleTaskWrapped).data = p.data ++ singleTaskWrapped.data from rfl]
    exact spec1.1
  · have hguard : ¬ ((p ++ singleTaskWrapped) ≠ "" ∧
        containsSub SINGLE_TASK_MARKER.data (p ++ singleTaskWrapped).data = false) := by
      intro h
      have hc := h.2
      rw [show (p ++ singleTaskWrapped).data = p.data ++ singleTaskWrapped.data from rfl,
        spec1.2] at hc
      exact absurd hc (by decide)
    rw [hinj]
    unfold injectSingleTaskDirective
    rw [if_neg hguard]
  · rw [hinj2]
    rw [show (q ++ READ_ONLY_DIRECTIVE).data = q.data ++ READ_ONLY_DIRECTIVE.data from rfl]
    exact spec2.1
  · have hguard : ¬ ((q ++ READ_ONLY_DIRECTIVE) ≠ "" ∧
        containsSub SYSTEM_DIRECTIVE_PREFIX.data (q ++ READ_ONLY_DIRECTIVE).data = false) := by
      intro h
      have hc := h.2
      rw [show (q ++ READ_ONLY_DIRECTIVE).data = q.data ++ READ_ONLY_DIRECTIVE.data from rfl,
        spec2.2] at hc
      exact absurd hc (by decide)
    rw [hinj2]
    unfold injectReadOnlyDirective
    rw [if_neg hguard]

/-- C8 witness: the theorem applied to the test suite's concrete prompts. -/
theorem claim_C8_directive_injection_idempotent_witness :
    ("Analyze this codebase" : String) ≠ "" ∧
    ("Research this library" : String) ≠ "" ∧
    countOcc SINGLE_TASK_MARKER.data ("Analyze this codebase").data = 0 ∧
    countOcc SYSTEM_DIRECTIVE_PREFIX.data ("Research this library").data = 0 ∧
    (countOcc SINGLE_TASK_MARKER.data (injectSingleTaskDirective "Analyze this codebase").data = 1 ∧
     injectSingleTaskDirective (injectSingleTaskDirective "Analyze this codebase") =
       injectSingleTaskDirective "Analyze this codebase" ∧
     countOcc SYSTEM_DIRECTIVE_PREFIX.data (injectReadOnlyDirective "Research this library").data = 1 ∧
     injectReadOnlyDirective (injectReadOnlyDirective "Research this library") =
       injectReadOnlyDirective "Research this library") :=
  ⟨by decide, by decide, by decide, by decide,
   claim_C8_directive_injection_idempotent "Analyze this codebase" "Research this library"
     (by decide) (by decide) (by decide) (by decide)⟩

/-- C1: for the main session with 3 todos (2 pending, 1 completed) and no
running background tasks, a `session.idle` event followed by the countdown
elapsing with no intervening activity yields exactly one continuation prompt,
and that prompt contains "2 remaining"; with an intervening
`tool.execute.before` before the countdown elapses, zero prompts are sent. -/
theorem claim_C1_todo_continuation_end_to_end :
    ((runEvents initialSessionState
        [Event.sessionIdle true (some todos3) false,
         Event.timerFire quietEnv 5000]).2.map
      (fun prompt => containsSub "2 remaining".data prompt.data)) = [true] ∧
    (runEvents initialSessionState
        [Event.sessionIdle true (some todos3) false,
         Event.toolExecuteBefore,
         Event.timerFire quietEnv 5000]).2 = [] := by
  constructor
  · decide
  · decide

/-- A session in `recovering` mode (set by `markRecovering`, which hands the
session to the external recovery controller). -/
def recoveringSessionState : SessionState :=
  { version := 7, mode := SessionMode.recovering, timer := none, lastAttemptedAt := none }

/-- C2 counterexample: for a session in `recovering` mode, `invalidate` returns
without touching the state, so the claimed strict version increase on *every*
call fails. -/
theorem claim_C2_version_counterexample :
    invalidate recoveringSessionState = recoveringSessionState ∧
    ¬ recoveringSessionState.version < (invalidate recoveringSessionState).version := by
  constructor
  · decide
  · decide

theorem executeInjection_version (s : SessionState) (cv : Nat) (env : InjectionEnv) (now : Nat) :
    (executeInjection s cv env now).1.version = s.version := by
  unfold executeInjection
  repeat' first
    | rfl
    | split
    | dsimp only

theorem invalidate_version_le (s : SessionState) : s.version ≤ (invalidate s).version := by
  unfold invalidate
  split
  · exact Nat.le_refl _
  · exact Nat.le_succ _

theorem startCountdown_version_le (s : SessionState) :
    s.version ≤ (startCountdown s).version := by
  unfold startCountdown
  have h := invalidate_version_le s
  simp only []
  omega

/-- C2 amended: for a tracked session that is not in `recovering` mode (while
`recovering`, `invalidate` is deliberately a no-op — spec 4.1), `invalidate`
strictly increases the version; hence a version captured at or before the
current version never equals the live version after such an invalidation; and
no event ever decreases a session's version, so captured versions are always
at most the live one. -/
theorem claim_C2_version_monotonic (s : SessionState) (captured : Nat)
    (hmode : s.mode ≠ SessionMode.recovering) (hcap : captured ≤ s.version) :
    (invalidate s).version = s.version + 1 ∧
    captured ≠ (invalidate s).version ∧
    ∀ e : Event, s.version ≤ (handleEvent s e).1.version := by
  have hv : (invalidate s).version = s.version + 1 := by
    unfold invalidate
    rw [if_neg hmode]
  refine ⟨hv, by omega, ?_⟩
  intro e
  cases e with
  | sessionError =>
    simp only [handleEvent]
    exact invalidate_version_le s
  | sessionIdle isMain todosFetch bg =>
    simp only [handleEvent]
    repeat' first
      | exact Nat.le_refl _
      | exact startCountdown_version_le s
      | split
  | messageUpdated role finish =>
    simp only [handleEvent]
    split
    · split
      · calc s.version = ({ s with mode := SessionMode.idle } : SessionState).version := rfl
          _ ≤ _ := invalidate_version_le _
      · exact invalidate_version_le s
    · split
      · exact invalidate_version_le s
      · exact Nat.le_refl _
  | messagePartUpdated role =>
    simp only [handleEvent]
    split
    · exact invalidate_version_le s
    · exact Nat.le_refl _
  | toolExecuteBefore =>
    exact invalidate_version_le s
  | toolExecuteAfter =>
    exact invalidate_version_le s
  | timerFire env now =>
    simp only [handleEvent]
    split
    · exact Nat.le_refl _
    · rw [executeInjection_version]

/-- C2 witness: the amended theorem applied to a fresh idle session with a
captured version of 0. -/
theorem claim_C2_version_monotonic_witness :
    initialSessionState.mode ≠ SessionMode.recovering ∧
    0 ≤ initialSessionState.version ∧
    ((invalidate initialSessionState).version = initialSessionState.version + 1 ∧
     0 ≠ (invalidate initialSessionState).version ∧
     ∀ e : Event, initialSessionState.version ≤ (handleEvent initialSessionState e).1.version) :=
  ⟨by decide, by decide,
   claim_C2_version_monotonic initialSessionState 0 (by decide) (by decide)⟩

theorem executeInjection_not_counting (s : SessionState) (cv : Nat) (env : InjectionEnv)
    (now : Nat) (h : s.mode ≠ SessionMode.countingDown) :
    executeInjection s cv env now = (s, none) := by
  unfold executeInjection
  split <;> simp [h]

theorem invalidate_mode_of_errorBypass (s : SessionState)
    (hm : s.mode = SessionMode.errorBypass) :
    (invalidate s).mode = SessionMode.errorBypass := by
  unfold invalidate
  simp [hm]

theorem errorBypass_step (s : SessionState) (e : Event)
    (hm : s.mode = SessionMode.errorBypass) (hu : isUserMessage e = false) :
    (handleEvent s e).1.mode = SessionMode.errorBypass ∧ (handleEvent s e).2 = none := by
  have hinv := invalidate_mode_of_errorBypass s hm
  cases e with
  | sessionError =>
    constructor
    · simp only [handleEvent]
    · rfl
  | sessionIdle isMain todosFetch bg =>
    cases isMain <;> simp [handleEvent, hm]
  | messageUpdated role finish =>
    have hrole : ¬ role = "user" := by
      simpa [isUserMessage] using hu
    simp only [handleEvent, if_neg hrole]
    split
    · exact ⟨hinv, rfl⟩
    · exact ⟨hm, rfl⟩
  | messagePartUpdated role =>
    simp only [handleEvent]
    split
    · exact ⟨hinv, rfl⟩
    · exact ⟨hm, rfl⟩
  | toolExecuteBefore => exact ⟨hinv, rfl⟩
  | toolExecuteAfter => exact ⟨hinv, rfl⟩
  | timerFire env now =>
    simp only [handleEvent]
    split
    · exact ⟨hm, rfl⟩
    · rw [executeInjection_not_counting _ _ _ _ (by simp [hm])]
      exact ⟨hm, rfl⟩

theorem errorBypass_run (es : List Event) :
    ∀ s : SessionState, s.mode = SessionMode.errorBypass →
      (∀ e ∈ es, isUserMessage e = false) →
      (runEvents s es).1.mode = SessionMode.errorBypass ∧ (runEvents s es).2 = [] := by
  induction es with
  | nil =>
    intro s hm _
    exact ⟨hm, rfl⟩
  | cons e rest ih =>
    intro s hm hall
    have h1 := errorBypass_step s e hm (hall e (List.mem_cons_self e rest))
    have h2 := ih (handleEvent s e).1 h1.1 (fun x hx => hall x (List.mem_cons_of_mem e hx))
    simp only [runEvents]
    rw [h1.2]
    exact ⟨h2.1, h2.2⟩

/-- C9: a `session.error` event forces the session into `errorBypass`; as long
as no user-role `message.updated` arrives, every subsequent prefix of events
leaves the mode at `errorBypass` (so no countdown is ever started) and no
continuation prompt is sent; a user-role `message.updated` while in
`errorBypass` clears the mode back to `idle`. -/
theorem claim_C9_error_bypass_until_user_message (s : SessionState) (es : List Event)
    (finish : Bool) (hes : ∀ e ∈ es, isUserMessage e = false) :
    (handleEvent s Event.sessionError).1.mode = SessionMode.errorBypass ∧
    (∀ es1 es2 : List Event, es = es1 ++ es2 →
      (runEvents (handleEvent s Event.sessionError).1 es1).1.mode = SessionMode.errorBypass ∧
      (runEvents (handleEvent s Event.sessionError).1 es1).2 = []) ∧
    (s.mode = SessionMode.errorBypass →
      (handleEvent s (Event.messageUpdated "user" finish)).1.mode = SessionMode.idle) := by
  have herr : (handleEvent s Event.sessionError).1.mode = SessionMode.errorBypass := rfl
  refine ⟨herr, ?_, ?_⟩
  · intro es1 es2 heq
    refine errorBypass_run es1 _ herr ?_
    intro x hx
    exact hes x (heq ▸ List.mem_append_left es2 hx)
  · intro hm
    simp [handleEvent, hm, invalidate]

/-- A session sitting in `errorBypass` after a failed turn. -/
def errorBypassSessionState : SessionState :=
  { version := 3, mode := SessionMode.errorBypass, timer := none, lastAttemptedAt := none }

/-- C9 witness: the theorem applied to a concrete session and a concrete
user-message-free event sequence (an idle and a tool execution). -/
theorem claim_C9_error_bypass_until_user_message_witness :
    (∀ e ∈ [Event.sessionIdle true (some todos3) false, Event.toolExecuteBefore],
       isUserMessage e = false) ∧
    ((handleEvent errorBypassSessionState Event.sessionError).1.mode = SessionMode.errorBypass ∧
     (∀ es1 es2 : List Event,
        [Event.sessionIdle true (some todos3) false, Event.toolExecuteBefore] = es1 ++ es2 →
        (runEvents (handleEvent errorBypassSessionState Event.sessionError).1 es1).1.mode =
          SessionMode.errorBypass ∧
        (runEvents (handleEvent errorBypassSessionState Event.sessionError).1 es1).2 = []) ∧
     (errorBypassSessionState.mode = SessionMode.errorBypass →
        (handleEvent errorBypassSessionState (Event.messageUpdated "user" true)).1.mode =
          SessionMode.idle)) :=
  ⟨by decide,
   claim_C9_error_bypass_until_user_message errorBypassSessionState
     [Event.sessionIdle true (some todos3) false, Event.toolExecuteBefore] true (by decide)⟩

/-- C3: when the invoking session's largest stored tool result meets the
truncation threshold and truncate attempts are below their maximum, the
invocation attempts truncation first (the truncate-storage call is the very
first externally visible step), and when that truncation is performed
(succeeds) `session.summarize` is never called in that invocation; when
truncate attempts are already at their maximum, the same invocation performs
no truncation and proceeds to the summarize tier (calling `session.summarize`
when its retries remain and a provider/model pair is known). -/
theorem claim_C3_truncate_before_summarize (cfgT : TruncateConfig) (cfgR : RetryConfig)
    (cfgF : FallbackConfig) (env : CompactEnv) (msg : CompactMsg) (now : Nat)
    (st : AutoCompactSession) (hguard : st.compactionInProgress = false)
    (largest : LargestToolResult) (hl : env.largest = some largest)
    (hsize : cfgT.minOutputSizeToTruncate ≤ largest.outputSize) :
    ((st.truncateState.getD { truncateAttempt := 0, lastTruncatedPartId := none }).truncateAttempt
        < cfgT.maxTruncateAttempts →
      (executeCompact cfgT cfgR cfgF env msg now st).2.1.head? =
        some (CompactAction.tryTruncate largest.partPath) ∧
      (env.truncateResult.success = true →
        ∀ providerID modelID, CompactAction.callSummarize providerID modelID ∉
          (executeCompact cfgT cfgR cfgF env msg now st).2.1)) ∧
    (cfgT.maxTruncateAttempts ≤
        (st.truncateState.getD
          { truncateAttempt := 0, lastTruncatedPartId := none }).truncateAttempt →
      (st.retryState.getD { attempt := 0, lastAttemptTime := 0 }).attempt < cfgR.maxAttempts →
      ∀ providerID modelID, msg.providerID = some providerID → msg.modelID = some modelID →
        ((∀ partPath, CompactAction.tryTruncate partPath ∉
            (executeCompact cfgT cfgR cfgF env msg now st).2.1) ∧
         CompactAction.callSummarize providerID modelID ∈
            (executeCompact cfgT cfgR cfgF env msg now st).2.1)) := by
  constructor
  · intro hlt
    cases hsucc : env.truncateResult.success with
    | true =>
      constructor
      · simp [executeCompact, hguard, hl, hsize, hlt, hsucc]
      · intro _ providerID modelID
        simp [executeCompact, hguard, hl, hsize, hlt, hsucc]
    | false =>
      constructor
      · simp [executeCompact, hguard, hl, hsize, hlt, hsucc]
      · intro hc
        exact absurd hc (by simp [hsucc])
  · intro hge hretry providerID modelID hpid hmid
    have hnlt : ¬ ((st.truncateState.getD
        { truncateAttempt := 0, lastTruncatedPartId := none }).truncateAttempt <
          cfgT.maxTruncateAttempts) :=
      Nat.not_lt.mpr hge
    cases hso : env.summarizeOk with
    | true =>
      constructor
      · intro partPath
        simp [executeCompact, summarizeTier, hguard, hnlt, hretry, hpid, hmid, hso]
      · simp [executeCompact, summarizeTier, hguard, hnlt, hretry, hpid, hmid, hso]
    | false =>
      constructor
      · intro partPath
        simp [executeCompact, summarizeTier, hguard, hnlt, hretry, hpid, hmid, hso]
      · simp [executeCompact, summarizeTier, hguard, hnlt, hretry, hpid, hmid, hso]

/-- Concrete configs and environment for the compaction witnesses. -/
def truncCfgW : TruncateConfig := { maxTruncateAttempts := 2, minOutputSizeToTruncate := 1000 }

def retryCfgW : RetryConfig :=
  { maxAttempts := 3, initialDelayMs := 1000, backoffFactor := 2, maxDelayMs := 30000 }

def fallbackCfgW : FallbackConfig := { maxRevertAttempts := 1 }

def largestW : LargestToolResult :=
  { partPath := "storage/part-big.json", partId := "prt_big", outputSize := 5000 }

def compactEnvTrunc : CompactEnv :=
  { largest := some largestW,
    truncateResult := { success := true, toolName := "bash", originalSize := 5000 },
    summarizeOk := true, messagePair := none, revertOk := true }

def compactMsgW : CompactMsg := { providerID := some "anthropic", modelID := some "claude-opus-4" }

/-- C3 witness: a fresh session with a 5000-byte largest tool result against a
1000-byte threshold attempts truncation as its first step. -/
theorem claim_C3_truncate_before_summarize_witness :
    clearedSessionState.compactionInProgress = false ∧
    compactEnvTrunc.largest = some largestW ∧
    truncCfgW.minOutputSizeToTruncate ≤ largestW.outputSize ∧
    (executeCompact truncCfgW retryCfgW fallbackCfgW compactEnvTrunc compactMsgW 0
        clearedSessionState).2.1.head? =
      some (CompactAction.tryTruncate largestW.partPath) :=
  ⟨rfl, rfl, by decide,
   ((claim_C3_truncate_before_summarize truncCfgW retryCfgW fallbackCfgW compactEnvTrunc
      compactMsgW 0 clearedSessionState rfl largestW rfl (by decide)).1 (by decide)).1⟩

/-- C4: with truncate attempts, summarize retries and revert attempts all at
their maxima, the invocation clears every per-session record, shows only the
terminal "start a new session" failure toast after the clear, and schedules no
further automatic attempt (the action trace is exactly the clear and the
toast). -/
theorem claim_C4_terminal_failure (cfgT : TruncateConfig) (cfgR : RetryConfig)
    (cfgF : FallbackConfig) (env : CompactEnv) (msg : CompactMsg) (now : Nat)
    (st : AutoCompactSession) (hguard : st.compactionInProgress = false)
    (ts : TruncateState) (hts : st.truncateState = some ts)
    (htsMax : cfgT.maxTruncateAttempts ≤ ts.truncateAttempt)
    (rs : RetryState) (hrs : st.retryState = some rs)
    (hrsMax : cfgR.maxAttempts ≤ rs.attempt)
    (fs : FallbackState) (hfs : st.fallbackState = some fs)
    (hfsMax : cfgF.maxRevertAttempts ≤ fs.revertAttempt) :
    (executeCompact cfgT cfgR cfgF env msg now st).1 = clearedSessionState ∧
    (executeCompact cfgT cfgR cfgF env msg now st).2.1 =
      [CompactAction.clearState,
       CompactAction.toastFailed "Auto Compact Failed"
         "All recovery attempts failed. Please start a new session."] ∧
    (executeCompact cfgT cfgR cfgF env msg now st).2.2 = CompactOutcome.gaveUp := by
  have hnt : ¬ (ts.truncateAttempt < cfgT.maxTruncateAttempts) := Nat.not_lt.mpr htsMax
  have hnr : ¬ (rs.attempt < cfgR.maxAttempts) := Nat.not_lt.mpr hrsMax
  have hnf : ¬ (fs.revertAttempt < cfgF.maxRevertAttempts) := Nat.not_lt.mpr hfsMax
  refine ⟨?_, ?_, ?_⟩ <;>
    simp [executeCompact, summarizeTier, revertTier, giveUpResult, hguard, hts, hnt, hrs, hnr,
      hfs, hnf]

/-- A session with every tier's attempt counter at the witness configs'
maxima. -/
def exhaustedSession : AutoCompactSession :=
  { pendingCompact := true, errorData := true,
    retryState := some { attempt := 3, lastAttemptTime := 0 },
    fallbackState := some { revertAttempt := 1, lastRevertedMessageID := some "msg_user" },
    truncateState := some { truncateAttempt := 2, lastTruncatedPartId := some "prt_big" },
    compactionInProgress := false }

/-- C4 witness: the theorem applied to the exhausted session. -/
theorem claim_C4_terminal_failure_witness :
    exhaustedSession.compactionInProgress = false ∧
    ((executeCompact truncCfgW retryCfgW fallbackCfgW compactEnvTrunc compactMsgW 0
        exhaustedSession).1 = clearedSessionState ∧
     (executeCompact truncCfgW retryCfgW fallbackCfgW compactEnvTrunc compactMsgW 0
        exhaustedSession).2.1 =
       [CompactAction.clearState,
        CompactAction.toastFailed "Auto Compact Failed"
          "All recovery attempts failed. Please start a new session."] ∧
     (executeCompact truncCfgW retryCfgW fallbackCfgW compactEnvTrunc compactMsgW 0
        exhaustedSession).2.2 = CompactOutcome.gaveUp) :=
  ⟨rfl,
   claim_C4_terminal_failure truncCfgW retryCfgW fallbackCfgW compactEnvTrunc compactMsgW 0
     exhaustedSession rfl _ rfl (by decide) _ rfl (by decide) _ rfl (by decide)⟩

theorem revertTier_clears (cfgF : FallbackConfig) (env : CompactEnv) (st : AutoCompactSession) :
    ((revertTier cfgF env st).2.2 = CompactOutcome.summarized → False) ∧
    ((revertTier cfgF env st).2.2 = CompactOutcome.gaveUp →
      (revertTier cfgF env st).1 = clearedSessionState) ∧
    ((revertTier cfgF env st).2.2 = CompactOutcome.reverted →
      ∀ delayMs, CompactAction.scheduleContinue delayMs ∉ (revertTier cfgF env st).2.1) := by
  by_cases h1 : (st.fallbackState.getD
      { revertAttempt := 0, lastRevertedMessageID := none }).revertAttempt <
      cfgF.maxRevertAttempts
  · rcases h2 : env.messagePair with _ | pair
    · simp [revertTier, giveUpResult, h1, h2]
    · cases h3 : env.revertOk
      · simp [revertTier, giveUpResult, h1, h2, h3]
      · rcases pair with ⟨uid, _ | aid⟩ <;> simp [revertTier, giveUpResult, h1, h2, h3]
  · simp [revertTier, giveUpResult, h1]

theorem summarizeTier_clears (cfgR : RetryConfig) (cfgF : FallbackConfig) (env : CompactEnv)
    (msg : CompactMsg) (now : Nat) (st : AutoCompactSession) :
    ((summarizeTier cfgR cfgF env msg now st).2.2 = CompactOutcome.summarized →
      (summarizeTier cfgR cfgF env msg now st).1 = clearedSessionState ∧
      CompactAction.scheduleContinue 500 ∈ (summarizeTier cfgR cfgF env msg now st).2.1) ∧
    ((summarizeTier cfgR cfgF env msg now st).2.2 = CompactOutcome.gaveUp →
      (summarizeTier cfgR cfgF env msg now st).1 = clearedSessionState) ∧
    ((summarizeTier cfgR cfgF env msg now st).2.2 = CompactOutcome.reverted →
      ∀ delayMs, CompactAction.scheduleContinue delayMs ∉
        (summarizeTier cfgR cfgF env msg now st).2.1) := by
  by_cases h6 : (st.retryState.getD { attempt := 0, lastAttemptTime := 0 }).attempt <
      cfgR.maxAttempts
  · rcases h7 : msg.providerID with _ | pid
    · have heq : summarizeTier cfgR cfgF env msg now st = revertTier cfgF env
          { st with retryState := some { attempt := (st.retryState.getD
              { attempt := 0, lastAttemptTime := 0 }).attempt + 1, lastAttemptTime := now } } := by
        simp [summarizeTier, h6, h7]
      rw [heq]
      refine ⟨fun h => absurd h (revertTier_clears _ _ _).1, (revertTier_clears _ _ _).2.1,
        (revertTier_clears _ _ _).2.2⟩
    · rcases h8 : msg.modelID with _ | mid
      · have heq : summarizeTier cfgR cfgF env msg now st = revertTier cfgF env
            { st with retryState := some { attempt := (st.retryState.getD
                { attempt := 0, lastAttemptTime := 0 }).attempt + 1, lastAttemptTime := now } } := by
          simp [summarizeTier, h6, h7, h8]
        rw [heq]
        refine ⟨fun h => absurd h (revertTier_clears _ _ _).1, (revertTier_clears _ _ _).2.1,
          (revertTier_clears _ _ _).2.2⟩
      · cases h9 : env.summarizeOk
        · simp [summarizeTier, h6, h7, h8, h9]
        · simp [summarizeTier, h6, h7, h8, h9]
  · have heq : summarizeTier cfgR cfgF env msg now st = revertTier cfgF env
        { st with retryState := some (st.retryState.getD
            { attempt := 0, lastAttemptTime := 0 }) } := by
      simp [summarizeTier, h6]
    rw [heq]
    refine ⟨fun h => absurd h (revertTier_clears _ _ _).1, (revertTier_clears _ _ _).2.1,
      (revertTier_clears _ _ _).2.2⟩

/-- C5: whenever an `executeCompact` invocation terminates the attempt chain —
by summarize succeeding (after which a "Continue" is re-sent) or by exhausting
every fallback tier — all per-session records (pending compaction, error data,
retry, fallback/revert, truncate, in-progress) are cleared entirely. A
successful revert does not terminate the chain: it re-schedules the whole
chain and re-sends no continuation, so the claim's "revert succeeded and a
continuation was re-sent" case never occurs. -/
theorem claim_C5_terminated_chain_clears_state (cfgT : TruncateConfig) (cfgR : RetryConfig)
    (cfgF : FallbackConfig) (env : CompactEnv) (msg : CompactMsg) (now : Nat)
    (st : AutoCompactSession) :
    ((executeCompact cfgT cfgR cfgF env msg now st).2.2 = CompactOutcome.summarized →
      (executeCompact cfgT cfgR cfgF env msg now st).1 = clearedSessionState ∧
      CompactAction.scheduleContinue 500 ∈ (executeCompact cfgT cfgR cfgF env msg now st).2.1) ∧
    ((executeCompact cfgT cfgR cfgF env msg now st).2.2 = CompactOutcome.gaveUp →
      (executeCompact cfgT cfgR cfgF env msg now st).1 = clearedSessionState) ∧
    ((executeCompact cfgT cfgR cfgF env msg now st).2.2 = CompactOutcome.reverted →
      ∀ delayMs, CompactAction.scheduleContinue delayMs ∉
        (executeCompact cfgT cfgR cfgF env msg now st).2.1) := by
  by_cases h1 : st.compactionInProgress = true
  · simp [executeCompact, h1]
  · by_cases h2 : (st.truncateState.getD ⟨0, none⟩).truncateAttempt < cfgT.maxTruncateAttempts
    · rcases h3 : env.largest with _ | l
      · have heq : executeCompact cfgT cfgR cfgF env msg now st =
            summarizeTier cfgR cfgF env msg now
              { st with truncateState := some (st.truncateState.getD ⟨0, none⟩), compactionInProgress := true } := by
          simp [executeCompact, h1, h2, h3]
        rw [heq]
        exact summarizeTier_clears cfgR cfgF env msg now _
      · by_cases h4 : cfgT.minOutputSizeToTruncate ≤ l.outputSize
        · cases h5 : env.truncateResult.success
          · have e1 : (executeCompact cfgT cfgR cfgF env msg now st).1 =
                (summarizeTier cfgR cfgF env msg now
                  { st with truncateState := some (st.truncateState.getD ⟨0, none⟩), compactionInProgress := true }).1 := by
              simp [executeCompact, h1, h2, h3, h4, h5]
            have e2 : (executeCompact cfgT cfgR cfgF env msg now st).2.1 =
                CompactAction.tryTruncate l.partPath ::
                (summarizeTier cfgR cfgF env msg now
                  { st with truncateState := some (st.truncateState.getD ⟨0, none⟩), compactionInProgress := true }).2.1 := by
              simp [executeCompact, h1, h2, h3, h4, h5]
            have e3 : (executeCompact cfgT cfgR cfgF env msg now st).2.2 =
                (summarizeTier cfgR cfgF env msg now
                  { st with truncateState := some (st.truncateState.getD ⟨0, none⟩), compactionInProgress := true }).2.2 := by
              simp [executeCompact, h1, h2, h3, h4, h5]
            rw [e1, e2, e3]
            have hS := summarizeTier_clears cfgR cfgF env msg now
              { st with truncateState := some (st.truncateState.getD ⟨0, none⟩), compactionInProgress := true }
            refine ⟨fun h => ⟨(hS.1 h).1, List.mem_cons_of_mem _ (hS.1 h).2⟩, hS.2.1,
              fun h delayMs => ?_⟩
            have hnot := hS.2.2 h delayMs
            simp [List.mem_cons, hnot]
          · simp [executeCompact, h1, h2, h3, h4, h5]
        · have heq : executeCompact cfgT cfgR cfgF env msg now st =
              summarizeTier cfgR cfgF env msg now
                { st with truncateState := some (st.truncateState.getD ⟨0, none⟩), compactionInProgress := true } := by
            simp [executeCompact, h1, h2, h3, h4]
          rw [heq]
          exact summarizeTier_clears cfgR cfgF env msg now _
    · have heq : executeCompact cfgT cfgR cfgF env msg now st =
          summarizeTier cfgR cfgF env msg now
            { st with truncateState := some (st.truncateState.getD ⟨0, none⟩), compactionInProgress := true } := by
        simp [executeCompact, h1, h2]
      rw [heq]
      exact summarizeTier_clears cfgR cfgF env msg now _

/-- Environment in which truncation is unavailable and summarize succeeds. -/
def compactEnvSummarize : CompactEnv :=
  { largest := none,
    truncateResult := { success := false, toolName := "", originalSize := 0 },
    summarizeOk := true, messagePair := none, revertOk := true }

/-- C5 witness: the theorem applied at a summarize-success invocation and at a
tier-exhausted invocation. -/
theorem claim_C5_terminated_chain_clears_state_witness :
    ((executeCompact truncCfgW retryCfgW fallbackCfgW compactEnvSummarize compactMsgW 0
        clearedSessionState).2.2 = CompactOutcome.summarized ∧
     ((executeCompact truncCfgW retryCfgW fallbackCfgW compactEnvSummarize compactMsgW 0
         clearedSessionState).1 = clearedSessionState ∧
      CompactAction.scheduleContinue 500 ∈
        (executeCompact truncCfgW retryCfgW fallbackCfgW compactEnvSummarize compactMsgW 0
          clearedSessionState).2.1)) ∧
    ((executeCompact truncCfgW retryCfgW fallbackCfgW compactEnvTrunc compactMsgW 0
        exhaustedSession).2.2 = CompactOutcome.gaveUp ∧
     (executeCompact truncCfgW retryCfgW fallbackCfgW compactEnvTrunc compactMsgW 0
        exhaustedSession).1 = clearedSessionState) :=
  ⟨⟨by decide,
    (claim_C5_terminated_chain_clears_state truncCfgW retryCfgW fallbackCfgW compactEnvSummarize
      compactMsgW 0 clearedSessionState).1 (by decide)⟩,
   ⟨by decide,
    (claim_C5_terminated_chain_clears_state truncCfgW retryCfgW fallbackCfgW compactEnvTrunc
      compactMsgW 0 exhaustedSession).2.1 (by decide)⟩⟩

theorem getContextLimitAux_eq_find (l : List (String × Nat)) (m : String) :
    getContextLimitAux l m =
      (match l.find? (fun kv => containsSub kv.1.data m.data) with
       | some kv => kv.2
       | none => 200000) := by
  induction l with
  | nil => rfl
  | cons kv rest ih =>
    cases h : containsSub kv.1.data m.data
    · simp [getContextLimitAux, List.find?_cons, h, ih]
    · simp [getContextLimitAux, List.find?_cons, h]

/-- C6 counterexample: for the model id `o1-mini` the source's lookup walks the
table in declaration order and returns the entry for the earlier key `o1`
(200,000), while the claimed longest-matching-substring rule selects the
`o1-mini` entry (128,000). -/
theorem claim_C6_longest_match_counterexample :
    getContextLimit "o1-mini" = 200000 ∧
    contextLimitLongestMatch "o1-mini" = 128000 ∧
    getContextLimit "o1-mini" ≠ contextLimitLongestMatch "o1-mini" := by
  refine ⟨by decide, by decide, by decide⟩

/-- C6 amended: the trigger computes
`usageRatio = (input + cacheRead + output) / contextLimit`, where the context
limit is the *first* table entry, in the table's declaration order, whose key
is a substring of the model identifier, and 200,000 when no table key is a
substring. -/
theorem claim_C6_usage_ratio_first_match (tokens : TokenInfo) (modelID : String) :
    preemptiveUsageRatio tokens modelID =
      ((tokens.input + tokens.cache.read + tokens.output : Nat) : ℚ) /
        ((getContextLimit modelID : Nat) : ℚ) ∧
    getContextLimit modelID = contextLimitFirstMatch modelID := by
  refine ⟨rfl, ?_⟩
  unfold getContextLimit contextLimitFirstMatch
  exact getContextLimitAux_eq_find MODEL_CONTEXT_LIMITS modelID

/-- C10: whenever a proactive compaction attempt passes the trigger checks
(no attempt in flight, cooldown elapsed, not already a summary, tokens known,
above the minimum floor, ratio at or above threshold), the in-progress flag is
added and the cooldown timestamp stamped as the first two visible steps —
before any `session.summarize` call — and on every return path, including a
rejected summarize, the flag is removed and the cooldown stamp stays, so a
failed attempt still starts the cooldown window and can never permanently
block future proactive compaction. -/
theorem claim_C10_preemptive_guard_and_cooldown (cooldownMs minTokens : Nat)
    (threshold : ℚ) (summarizeOk : Bool) (now : Nat) (msg : PreemptiveMsg)
    (st : PreemptiveState) (tokens : TokenInfo)
    (hguard : st.compactionInProgress = false)
    (hcool : ¬ (now - st.lastCompactionTime.getD 0 < cooldownMs))
    (hsum : msg.summary = false)
    (htok : msg.tokens = some tokens)
    (hmin : ¬ (tokens.input + tokens.cache.read + tokens.output < minTokens))
    (hthr : ¬ (preemptiveUsageRatio tokens (msg.modelID.getD "") < threshold)) :
    (checkAndTriggerCompaction cooldownMs minTokens threshold summarizeOk now msg
      st).1.compactionInProgress = false ∧
    (checkAndTriggerCompaction cooldownMs minTokens threshold summarizeOk now msg
      st).1.lastCompactionTime = some now ∧
    ∃ rest, (checkAndTriggerCompaction cooldownMs minTokens threshold summarizeOk now msg st).2 =
      PreemptiveAction.addInProgress :: PreemptiveAction.setLastCompactionTime now :: rest := by
  rcases hp : msg.providerID with _ | pid
  · refine ⟨?_, ?_, ?_⟩ <;>
      simp [checkAndTriggerCompaction, hguard, hcool, hsum, htok, hmin, hthr, hp]
  · rcases hm : msg.modelID with _ | mid
    · rw [hm] at hthr
      simp only [Option.getD_none] at hthr
      refine ⟨?_, ?_, ?_⟩ <;>
        simp [checkAndTriggerCompaction, hguard, hcool, hsum, htok, hmin, hthr, hp, hm]
    · rw [hm] at hthr
      simp only [Option.getD_some] at hthr
      cases hso : summarizeOk <;>
        · refine ⟨?_, ?_, ?_⟩ <;>
            simp [checkAndTriggerCompaction, hguard, hcool, hsum, htok, hmin, hthr, hp, hm, hso]

/-- The C10 witness inputs: a 190,000-token turn against the default limit. -/
def tokensW : TokenInfo := { input := 150000, output := 10000, cache := { read := 30000, write := 0 } }

def msgW : PreemptiveMsg :=
  { providerID := some "anthropic", modelID := some "claude-opus-4",
    tokens := some tokensW, summary := false }

def preemptiveStW : PreemptiveState := { lastCompactionTime := none, compactionInProgress := false }

/-- C10 witness: the theorem applied with a zero threshold and a rejecting
summarize call (`summarizeOk = false`): the flag still ends released and the
cooldown stamped. -/
theorem claim_C10_preemptive_guard_and_cooldown_witness :
    preemptiveStW.compactionInProgress = false ∧
    msgW.tokens = some tokensW ∧
    ((checkAndTriggerCompaction 0 1000 0 false 99 msgW preemptiveStW).1.compactionInProgress =
       false ∧
     (checkAndTriggerCompaction 0 1000 0 false 99 msgW preemptiveStW).1.lastCompactionTime =
       some 99 ∧
     ∃ rest, (checkAndTriggerCompaction 0 1000 0 false 99 msgW preemptiveStW).2 =
       PreemptiveAction.addInProgress :: PreemptiveAction.setLastCompactionTime 99 :: rest) :=
  ⟨rfl, rfl,
   claim_C10_preemptive_guard_and_cooldown 0 1000 0 false 99 msgW preemptiveStW tokensW rfl
     (by decide) rfl rfl (by decide)
     (not_lt.mpr (div_nonneg (Nat.cast_nonneg _) (Nat.cast_nonneg _)))⟩

/-- C7: for the planner role's write/edit tool calls (modelled from spec 4.5;
the hook implementation is outside the snapshot): any path not ending in
`.md`/`.MD` case-insensitively fails with the "can only write/edit .md files"
rejection; any `.md` path whose normalized segments (both slash kinds, dot
segments resolved) contain no `.sisyphus` component fails with the more
specific inside-the-reserved-directory rejection — in particular
`.sisyphus/../secrets.md` is rejected while `.SISYPHUS/plans/x.MD` is allowed —
and non-write/edit tools and non-planner agents are untouched (as is a missing
file path). -/
theorem claim_C7_md_only_guard (tool : String) (p : String) :
    (WRITE_EDIT_TOOLS.contains tool = true →
      (endsWithMdExtension p = false →
        prometheusMdOnlyCheck true tool (some p) = MdGuardResult.rejectedNotMd) ∧
      (endsWithMdExtension p = true → hasSisyphusComponent p = false →
        prometheusMdOnlyCheck true tool (some p) = MdGuardResult.rejectedOutsideSisyphus)) ∧
    prometheusMdOnlyCheck true "Write" (some ".sisyphus/../secrets.md") =
      MdGuardResult.rejectedOutsideSisyphus ∧
    prometheusMdOnlyCheck true "Write" (some ".SISYPHUS/plans/x.MD") = MdGuardResult.ok ∧
    (WRITE_EDIT_TOOLS.contains tool = false →
      ∀ filePath, prometheusMdOnlyCheck true tool filePath = MdGuardResult.ok) ∧
    (∀ filePath, prometheusMdOnlyCheck false tool filePath = MdGuardResult.ok) := by
  refine ⟨?_, by decide, by decide, ?_, ?_⟩
  · intro htool
    have hmem : tool ∈ WRITE_EDIT_TOOLS := by simpa using htool
    constructor
    · intro hext
      simp [prometheusMdOnlyCheck, hmem, hext]
    · intro hext hcomp
      simp [prometheusMdOnlyCheck, hmem, hext, hcomp]
  · intro htool filePath
    have hmem : tool ∉ WRITE_EDIT_TOOLS := by simpa using htool
    simp [prometheusMdOnlyCheck, hmem]
  · intro filePath
    simp [prometheusMdOnlyCheck]

/-- C7 witness: the theorem applied at the spec's literal cases, exercising
both rejection messages. -/
theorem claim_C7_md_only_guard_witness :
    WRITE_EDIT_TOOLS.contains "Write" = true ∧
    endsWithMdExtension "/tmp/proj/src/code.ts" = false ∧
    prometheusMdOnlyCheck true "Write" (some "/tmp/proj/src/code.ts") =
      MdGuardResult.rejectedNotMd ∧
    endsWithMdExtension "/tmp/proj/README.md" = true ∧
    hasSisyphusComponent "/tmp/proj/README.md" = false ∧
    prometheusMdOnlyCheck true "Write" (some "/tmp/proj/README.md") =
      MdGuardResult.rejectedOutsideSisyphus :=
  ⟨by decide, by decide,
   ((claim_C7_md_only_guard "Write" "/tmp/proj/src/code.ts").1 (by decide)).1 (by decide),
   by decide, by decide,
   ((claim_C7_md_only_guard "Write" "/tmp/proj/README.md").1 (by decide)).2 (by decide)
     (by decide)⟩
